import Mathlib

/-!
Shallow embedding of the aggregation engine of the price-checker repository
(`backend/services/search.py`, `backend/database.py`, `backend/config.py`,
`backend/models.py`), together with theorems settling the specification
claims about it.

Modelling conventions:
* Python strings are Lean `String`s (lists of unicode characters).
* `unicodedata`-based accent stripping (`_normalize`) is embedded as a
  character map over the precomposed Latin letters that occur in the
  repository's data (French accents); lowercasing is embedded likewise.
* Python `re` word-boundary search (`\b…\b`) and substring containment are
  embedded as executable scans over character lists; the Python word-class
  `\w` is restricted to its ASCII fragment, which is exhaustive for
  normalized (accent-stripped, lowercased) text.
* Python floats standing for prices, durations and the 0.5 relevance
  threshold are embedded as rationals: every comparison the code performs
  on them is exact at the magnitudes involved.  `time.time()` timestamps
  are embedded as integer seconds: the only operation on them is the
  TTL-age comparison against the whole-second constant
  `CACHE_TTL_SECONDS`, which is insensitive to sub-second granularity.
* The SQLite table keyed by `UNIQUE(query, store)` is an association list
  of entries; `json.dumps`/`json.loads` of a product list round-trip, so the
  serialized payload is embedded as either a decodable product list or an
  undecodable (corrupt) blob, `json.loads` of the latter raising.
* `asyncio.gather` over the per-source tasks is embedded as running the
  tasks in working-set order while threading the shared cache state; an
  exception escaping a task propagates out of the gather, hence of
  `search_all`.
-/

/-- Lowercase mapping used by Python `str.lower` on the character
repertoire in play: ASCII letters and Latin-1 accented capitals. -/
def lowerChar (c : Char) : Char :=
  if 'A' ≤ c ∧ c ≤ 'Z' then Char.ofNat (c.toNat + 32)
  else if 'À' ≤ c ∧ c ≤ 'Þ' ∧ c ≠ '×' then Char.ofNat (c.toNat + 32)
  else c

/-- Accent stripping as performed by NFKD decomposition followed by
removal of combining marks, on precomposed Latin lowercase letters. -/
def stripAccentChar (c : Char) : Char :=
  if c = 'à' ∨ c = 'â' ∨ c = 'ä' ∨ c = 'á' ∨ c = 'ã' then 'a'
  else if c = 'é' ∨ c = 'è' ∨ c = 'ê' ∨ c = 'ë' then 'e'
  else if c = 'î' ∨ c = 'ï' ∨ c = 'í' then 'i'
  else if c = 'ô' ∨ c = 'ö' ∨ c = 'ó' ∨ c = 'õ' then 'o'
  else if c = 'ù' ∨ c = 'û' ∨ c = 'ü' ∨ c = 'ú' then 'u'
  else if c = 'ç' then 'c'
  else if c = 'ÿ' then 'y'
  else if c = 'ñ' then 'n'
  else c

/-- Function `_normalize` from `backend/services/search.py`: lowercase, then strip
accents. -/
def normalizeStr (s : String) : String :=
  ⟨s.data.map fun c => stripAccentChar (lowerChar c)⟩

/-- Python `str.lower` (used for cache keys and store keys). -/
def pyLower (s : String) : String :=
  ⟨s.data.map lowerChar⟩

/-- Python `str.strip`: drop leading and trailing whitespace. -/
def pyStrip (s : String) : String :=
  ⟨((s.data.dropWhile Char.isWhitespace).reverse.dropWhile Char.isWhitespace).reverse⟩

/-- character class of the regex `[a-z]`. -/
def isLowerAlpha (c : Char) : Bool :=
  'a' ≤ c && c ≤ 'z'

/-- Python regex word class `\w`, restricted to ASCII (normalized text is
ASCII). -/
def isWordChar (c : Char) : Bool :=
  c.isAlpha || c.isDigit || c = '_'

/-- Helper for `tokenizeRuns`: `acc` holds the current (reversed) run of
letters. -/
def tokenizeAux : List Char → List Char → List (List Char)
  | [], acc => if acc.isEmpty then [] else [acc.reverse]
  | c :: cs, acc =>
    if isLowerAlpha c then
      tokenizeAux cs (c :: acc)
    else if acc.isEmpty then
      tokenizeAux cs []
    else
      acc.reverse :: tokenizeAux cs []

/-- Regex `re.findall(r"[a-z]+", text)`: the maximal runs of lowercase ASCII
letters, in order. -/
def tokenizeRuns (l : List Char) : List (List Char) :=
  tokenizeAux l []

/-- Constant `_STOP_WORDS` from `backend/services/search.py`. -/
def STOP_WORDS : List String :=
  ["de", "du", "des", "le", "la", "les", "un", "une", "au", "aux",
   "et", "ou", "en", "a", "à"]

/-- Function `_extract_words` from `backend/services/search.py`. -/
def extractWords (text : String) : List String :=
  ((tokenizeRuns (normalizeStr text).data).map fun l => (⟨l⟩ : String)).filter
    fun w => !STOP_WORDS.contains w && decide (1 < w.length)

/-- Python substring containment `a in b`. -/
def isSubstr (a b : List Char) : Bool :=
  (List.range (b.length + 1)).any fun i => decide ((b.drop i).take a.length = a)

/-- One candidate position of the regex search `\b<kw>\b` in `name`:
the keyword occurs at index `i` and both ends sit on word boundaries. -/
def wholeWordAt (kw name : List Char) (i : Nat) : Bool :=
  decide ((name.drop i).take kw.length = kw) &&
  (decide (i = 0) || !isWordChar (name.getD (i - 1) ' ')) &&
  (decide (name.length ≤ i + kw.length) || !isWordChar (name.getD (i + kw.length) ' '))

/-- Regex search `re.search(r"\b" + re.escape(kw) + r"\b", name)` for an all-letter
keyword: some position matches. -/
def wholeWordSearch (kw name : List Char) : Bool :=
  (List.range (name.length + 1)).any (wholeWordAt kw name)

/-- Constant `_MIN_RELEVANCE` from `backend/services/search.py` (the float 0.5). -/
def MIN_RELEVANCE : ℚ := mkRat 1 2

/-- Model `ScrapedProduct` from `backend/models.py`. -/
structure ScrapedProduct where
  name : String
  price : Option ℚ := none
  price_per_unit : Option String := none
  image_url : Option String := none
  product_url : String
  store_name : String
deriving DecidableEq, Repr

/-- Model `SearchResponse` from `backend/models.py`. -/
structure SearchResponse where
  query : String
  results : List ScrapedProduct
  errors : List String := []
deriving DecidableEq, Repr

/-- Function `_is_relevant` from `backend/services/search.py`. -/
def is_relevant (product : ScrapedProduct) (query : String) : Bool :=
  let norm_name := (normalizeStr product.name).data
  let keywords := extractWords query
  if keywords.isEmpty then
    -- If the query is only stop words, don't filter anything
    true
  else if !(keywords.all fun kw => wholeWordSearch kw.data norm_name) then
    false
  else if 2 ≤ keywords.length then
    let product_words := extractWords product.name
    if !product_words.isEmpty then
      let matched := product_words.countP fun pw =>
        keywords.any fun kw => isSubstr kw.data pw.data || isSubstr pw.data kw.data
      -- `matched / len(product_words)`: exact rational division
      -- (`Rat.mkRat_eq_div`), written with `mkRat` to stay kernel-computable
      if mkRat (matched : Int) product_words.length < MIN_RELEVANCE then
        false
      else
        true
    else
      true
  else
    true

/-! Section: Cache Store (`backend/database.py`, `backend/config.py`) -/

/-- Constant `CACHE_TTL_SECONDS` from `backend/config.py` (6 hours). -/
def CACHE_TTL_SECONDS : ℤ := 6 * 60 * 60

/-- Constant `SCRAPER_TIMEOUT_SECONDS` from `backend/config.py`. -/
def SCRAPER_TIMEOUT_SECONDS : ℤ := 15

/-- A stored `results_json` column value: either a decodable dump of a
product list (`json.dumps` / `json.loads` round-trip) or a corrupted blob
on which `json.loads` raises. -/
inductive Payload where
  | ok (products : List ScrapedProduct)
  | corrupt
deriving DecidableEq, Repr

/-- One row of the `search_cache` table. -/
structure CacheEntry where
  query : String
  store : String
  results_json : Payload
  created_at : ℤ
deriving DecidableEq, Repr

/-- The `search_cache` table, as an association list; the
`UNIQUE(query, store)` constraint is maintained by the upsert. -/
abbrev CacheState := List CacheEntry

/-- The exception `json.loads` raises on a corrupted payload. -/
inductive JsonDecodeError where
  | mk
deriving DecidableEq, Repr

deriving instance DecidableEq for Except

/-- Normalization `query.lower().strip()`: the cache-key normalization used by both
`get_cached_results` and `set_cached_results`. -/
def normKey (q : String) : String :=
  pyStrip (pyLower q)

/-- The `SELECT … WHERE query = ? AND store = ?` lookup. -/
def lookupEntry (st : CacheState) (q s : String) : Option CacheEntry :=
  st.find? fun e => e.query == q && e.store == s

/-- The `DELETE … WHERE query = ? AND store = ?` statement. -/
def deleteEntry (st : CacheState) (q s : String) : CacheState :=
  st.filter fun e => !(e.query == q && e.store == s)

/-- Function `get_cached_results` from `backend/database.py`.  Returns the Python
return value (with raising embedded in `Except`) together with the
database state after the call. -/
def get_cached_results (st : CacheState) (now : ℤ) (query store : String) :
    Except JsonDecodeError (Option (List ScrapedProduct)) × CacheState :=
  match lookupEntry st (normKey query) store with
  | none => (Except.ok none, st)
  | some e =>
    if now - e.created_at > CACHE_TTL_SECONDS then
      (Except.ok none, deleteEntry st (normKey query) store)
    else
      match e.results_json with
      | Payload.ok ps => (Except.ok (some ps), st)
      | Payload.corrupt => (Except.error JsonDecodeError.mk, st)

/-- The `INSERT OR REPLACE` upsert on the `UNIQUE(query, store)` key. -/
def upsertEntry (st : CacheState) (e : CacheEntry) : CacheState :=
  (st.filter fun x => !(x.query == e.query && x.store == e.store)) ++ [e]

/-- Function `set_cached_results` from `backend/database.py`. -/
def set_cached_results (st : CacheState) (now : ℤ) (query store : String)
    (results : List ScrapedProduct) : CacheState :=
  upsertEntry st ⟨normKey query, store, Payload.ok results, now⟩

/-! Section: Aggregation Coordinator (`backend/services/search.py`) -/

/-- Observable behaviour of one `scraper.search(query)` coroutine: it runs
for `duration` seconds and then either returns a product list or raises an
exception whose `str` is `detail`. -/
inductive SearchBehavior where
  | returns (duration : ℚ) (products : List ScrapedProduct)
  | raises (duration : ℚ) (detail : String)

/-- A Source Capability instance as the Coordinator sees it
(`BaseScraper` from `backend/scrapers/base.py`). -/
structure Scraper where
  store_name : String
  search : String → SearchBehavior

/-- Result of awaiting `asyncio.wait_for(coroutine, timeout)`. -/
inductive FetchOutcome where
  | success (products : List ScrapedProduct)
  | timeout
  | failure (detail : String)
deriving DecidableEq, Repr

/-- Semantics of `asyncio.wait_for`: if the coroutine outlives the deadline it is
cancelled and `TimeoutError` is raised; otherwise its own result or
exception is delivered. -/
def wait_for (b : SearchBehavior) (timeout : ℚ) : FetchOutcome :=
  match b with
  | SearchBehavior.returns d ps => if d > timeout then FetchOutcome.timeout else FetchOutcome.success ps
  | SearchBehavior.raises d msg => if d > timeout then FetchOutcome.timeout else FetchOutcome.failure msg

/-- The literal `timeout=45` passed to `asyncio.wait_for` in
`_run_scraper` (`backend/services/search.py`). -/
def RUN_SCRAPER_DEADLINE : ℚ := 45

/-- Function `_run_scraper` from `backend/services/search.py`: one per-source task.
Returns the task's value `(products, optional error)`, or propagates the
uncaught cache decode exception; threads the cache state. -/
def run_scraper (st : CacheState) (now : ℤ) (scraper : Scraper) (query : String) :
    Except JsonDecodeError ((List ScrapedProduct × Option String) × CacheState) :=
  let store_key := pyLower scraper.store_name
  match get_cached_results st now query store_key with
  | (Except.error e, _) => Except.error e
  | (Except.ok (some cached), st1) => Except.ok ((cached, none), st1)
  | (Except.ok none, st1) =>
    match wait_for (scraper.search query) RUN_SCRAPER_DEADLINE with
    | FetchOutcome.success results =>
      Except.ok ((results, none), set_cached_results st1 now query store_key results)
    | FetchOutcome.timeout =>
      Except.ok (([], some (scraper.store_name ++ ": timeout")), st1)
    | FetchOutcome.failure detail =>
      Except.ok (([], some (scraper.store_name ++ ": " ++ detail)), st1)

/-- The `SCRAPERS` registry type: keys to Source Capability instances, in
registration order (Python dicts preserve insertion order). -/
abbrev Registry := List (String × Scraper)

/-- Registry lookup `SCRAPERS[key]` guarded by `key in SCRAPERS`. -/
def lookupScraper (registry : Registry) (key : String) : Option Scraper :=
  (registry.find? fun kv => kv.1 == key).map Prod.snd

/-- The subset-resolution loop of `search_all`: for each requested store,
lowercase it and keep it only when the registry knows it.  Dict
insertion-order semantics: a key sits at its first occurrence; a duplicate
occurrence re-assigns the same registry value, leaving the dict unchanged
(modelled by dropping the later duplicate). -/
def buildSubset (registry : Registry) : List String → Registry
  | [] => []
  | s :: ss =>
    match lookupScraper registry (pyLower s) with
    | some scr =>
      (pyLower s, scr) :: (buildSubset registry ss).filter fun kv => kv.1 != pyLower s
    | none => buildSubset registry ss

/-- Working-set resolution in `search_all` (`if stores:` is false for both
`None` and the empty list). -/
def resolveWorkingSet (registry : Registry) (stores : Option (List String)) : Registry :=
  match stores with
  | some (s :: ss) => buildSubset registry (s :: ss)
  | _ => registry

/-- Semantics of `asyncio.gather` over the per-source tasks, embedded as running them in
working-set order while threading the shared cache state; an exception
escaping any task propagates out of the gather. -/
def runTasks (now : ℤ) (query : String) :
    CacheState → Registry →
    Except JsonDecodeError (List (List ScrapedProduct × Option String) × CacheState)
  | st, [] => Except.ok ([], st)
  | st, (_, scr) :: rest =>
    match run_scraper st now scr query with
    | Except.error e => Except.error e
    | Except.ok (outcome, st1) =>
      match runTasks now query st1 rest with
      | Except.error e => Except.error e
      | Except.ok (outs, st2) => Except.ok (outcome :: outs, st2)

/-- The sort key `lambda p: (p.price is None, p.price or 0)` (booleans
written as the naturals 0/1 they compare as). -/
def sortKey (p : ScrapedProduct) : ℕ × ℚ :=
  (if p.price.isNone then 1 else 0, p.price.getD 0)

/-- Lexicographic comparison of sort keys (Python tuple ordering). -/
def keyLe (p q : ScrapedProduct) : Prop :=
  (sortKey p).1 < (sortKey q).1 ∨
    ((sortKey p).1 = (sortKey q).1 ∧ (sortKey p).2 ≤ (sortKey q).2)

instance : DecidableRel keyLe := fun p q => by
  unfold keyLe; infer_instance

/-- Stable sort `all_results.sort(key=…)`: Python `list.sort` is a stable sort;
embedded as insertion sort, which is stable. -/
def sortProducts (l : List ScrapedProduct) : List ScrapedProduct :=
  List.insertionSort keyLe l

/-- Function `search_all` from `backend/services/search.py`. -/
def search_all (registry : Registry) (st : CacheState) (now : ℤ)
    (query : String) (stores : Option (List String)) :
    Except JsonDecodeError (SearchResponse × CacheState) :=
  let scrapers_to_run := resolveWorkingSet registry stores
  if scrapers_to_run.isEmpty then
    Except.ok ({ query := query, results := [], errors := ["No valid stores selected"] }, st)
  else
    match runTasks now query st scrapers_to_run with
    | Except.error e => Except.error e
    | Except.ok (outcomes, st1) =>
      let all_results := (outcomes.map Prod.fst).flatten
      let errors := outcomes.filterMap fun o =>
        match o.2 with
        | some msg => if msg ≠ "" then some msg else none
        | none => none
      let filtered := all_results.filter fun p => is_relevant p query
      Except.ok ({ query := query, results := sortProducts filtered, errors := errors }, st1)

/-- Running time of a `search` coroutine, used to phrase "the fetch
exceeds the deadline". -/
def behaviorDuration : SearchBehavior → ℚ
  | SearchBehavior.returns d _ => d
  | SearchBehavior.raises d _ => d

instance : IsTotal ScrapedProduct keyLe := by
  constructor
  intro a b
  unfold keyLe
  rcases Nat.lt_trichotomy (sortKey a).1 (sortKey b).1 with h | h | h
  · exact Or.inl (Or.inl h)
  · rcases le_total (sortKey a).2 (sortKey b).2 with h2 | h2
    · exact Or.inl (Or.inr ⟨h, h2⟩)
    · exact Or.inr (Or.inr ⟨h.symm, h2⟩)
  · exact Or.inr (Or.inl h)

instance : IsTrans ScrapedProduct keyLe := by
  constructor
  intro a b c hab hbc
  unfold keyLe at *
  rcases hab with h1 | ⟨h1, h1b⟩
  · rcases hbc with h2 | ⟨h2, h2b⟩
    · exact Or.inl (h1.trans h2)
    · exact Or.inl (h2 ▸ h1)
  · rcases hbc with h2 | ⟨h2, h2b⟩
    · exact Or.inl (h1 ▸ h2)
    · exact Or.inr ⟨h1.trans h2, h1b.trans h2b⟩

/-! Section: concrete objects used by the claim instances -/

/-- ASCII apostrophe. -/
def apos : Char := Char.ofNat 39

/-- Product-name literal with an apostrophe: Huile d-apos-olive. -/
def nameHuileOlive : String := "Huile d" ++ ⟨[apos]⟩ ++ "olive"

/-- Product-name literal: Thon a-grave l-apos-huile de tournesol. -/
def nameThon : String := "Thon à l" ++ ⟨[apos]⟩ ++ "huile de tournesol"

/-- Product constructor mirroring the repository's unit-test helper. -/
def sampleProduct (n : String) : ScrapedProduct :=
  { name := n, product_url := "", store_name := "Test" }

/-- Scenario products for source 1 (prices 1 and 2). -/
def s1Products : List ScrapedProduct :=
  [{ name := "Huile un", price := some 1, product_url := "u", store_name := "S1" },
   { name := "Huile deux", price := some 2, product_url := "u", store_name := "S1" }]

/-- Scenario products for source 2 (never delivered: the fetch times out). -/
def s2Products : List ScrapedProduct :=
  [{ name := "Huile neuf", price := some 9, product_url := "u", store_name := "S2" }]

/-- Scenario products for source 3 (price 3). -/
def s3Products : List ScrapedProduct :=
  [{ name := "Huile trois", price := some 3, product_url := "u", store_name := "S3" }]

/-- Scenario products for source 4 (price 4). -/
def s4Products : List ScrapedProduct :=
  [{ name := "Huile quatre", price := some 4, product_url := "u", store_name := "S4" }]

/-- Source 1: answers within the deadline. -/
def srcS1 : Scraper := ⟨"S1", fun _ => SearchBehavior.returns 1 s1Products⟩

/-- Source 2: its fetch runs 100 s, exceeding the 45 s deadline. -/
def srcS2 : Scraper := ⟨"S2", fun _ => SearchBehavior.returns 100 s2Products⟩

/-- Source 3: answers within the deadline. -/
def srcS3 : Scraper := ⟨"S3", fun _ => SearchBehavior.returns 1 s3Products⟩

/-- Source 4: answers within the deadline. -/
def srcS4 : Scraper := ⟨"S4", fun _ => SearchBehavior.returns 1 s4Products⟩

/-- Source whose fetch raises (detail boom) within the deadline. -/
def failScraper : Scraper := ⟨"S5", fun _ => SearchBehavior.raises 1 ("boom")⟩

/-- Registry of the 4 scenario sources. -/
def scenarioRegistry : Registry :=
  [("s1", srcS1), ("s2", srcS2), ("s3", srcS3), ("s4", srcS4)]

/-- Registry holding only the raising source. -/
def failRegistry : Registry := [("s5", failScraper)]

/-- Cache state the 4-source scenario ends in: one freshly written entry
per successful source, in task order. -/
def scenarioFinalState : CacheState :=
  [{ query := "huile", store := "s1", results_json := Payload.ok s1Products, created_at := 0 },
   { query := "huile", store := "s3", results_json := Payload.ok s3Products, created_at := 0 },
   { query := "huile", store := "s4", results_json := Payload.ok s4Products, created_at := 0 }]

/-- A registry with the single source aldi (behaviour irrelevant: the
corrupted cache read raises before any fetch happens). -/
def aldiScraper : Scraper := ⟨"Aldi", fun _ => SearchBehavior.returns 1 []⟩

/-- Singleton registry for the corrupted-cache scenario. -/
def aldiRegistry : Registry := [("aldi", aldiScraper)]

/-- A cache holding one corrupted row for the key (q, aldi). -/
def corruptState : CacheState :=
  [{ query := "q", store := "aldi", results_json := Payload.corrupt, created_at := 0 }]

/-- A cache holding one entry written at time 0 for the key (q, s). -/
def staleState : CacheState :=
  [{ query := "q", store := "s", results_json := Payload.ok [], created_at := 0 }]

/-- Example product without price (first in input order). -/
def exNull1 : ScrapedProduct := { name := "n1", product_url := "u", store_name := "S" }

/-- Example product priced 2.50. -/
def exPrice250 : ScrapedProduct :=
  { name := "n2", price := some (mkRat 5 2), product_url := "u", store_name := "S" }

/-- Example product priced 1.20. -/
def exPrice120 : ScrapedProduct :=
  { name := "n3", price := some (mkRat 6 5), product_url := "u", store_name := "S" }

/-- Example product without price (second in input order). -/
def exNull2 : ScrapedProduct := { name := "n4", product_url := "u", store_name := "S" }

/-! Section: helper lemmas -/

theorem find?_filter_not (p : α → Bool) (l : List α) :
    (l.filter fun x => !(p x)).find? p = none := by
  induction l with
  | nil => rfl
  | cons a l ih =>
    rw [List.filter_cons]
    by_cases h : p a = true
    · rw [if_neg (by simp [h])]
      exact ih
    · rw [if_pos (by simp [h]), List.find?_cons_of_neg _ h]
      exact ih

/-- Looking up the key just upserted finds the new entry. -/
theorem lookupEntry_upsert_self (st : CacheState) (q s : String) (p : Payload) (t : ℤ) :
    lookupEntry (upsertEntry st ⟨q, s, p, t⟩) q s = some ⟨q, s, p, t⟩ := by
  unfold lookupEntry upsertEntry
  rw [List.find?_append, find?_filter_not]
  simp

/-- Deleting a key makes its lookup miss. -/
theorem lookupEntry_delete_self (st : CacheState) (q s : String) :
    lookupEntry (deleteEntry st q s) q s = none := by
  unfold lookupEntry deleteEntry
  exact find?_filter_not _ st

/-- The freshly written entry is never stale (its age at read time is 0),
so a put followed by a get on the same key returns the stored list. -/
theorem cache_roundtrip (st : CacheState) (now : ℤ) (q s : String)
    (ps : List ScrapedProduct) :
    get_cached_results (set_cached_results st now q s ps) now q s =
      (Except.ok (some ps), set_cached_results st now q s ps) := by
  unfold get_cached_results set_cached_results
  rw [lookupEntry_upsert_self st (normKey q) s (Payload.ok ps) now]
  dsimp only
  rw [if_neg (by rw [sub_self]; decide)]

/-- Reading a stale entry deletes it and reports absent. -/
theorem get_stale (st : CacheState) (now : ℤ) (q s : String) (e : CacheEntry)
    (hl : lookupEntry st (normKey q) s = some e)
    (hstale : now - e.created_at > CACHE_TTL_SECONDS) :
    get_cached_results st now q s = (Except.ok none, deleteEntry st (normKey q) s) := by
  unfold get_cached_results
  rw [hl]
  dsimp only
  rw [if_pos hstale]

/-- Reading a fresh but corrupted entry raises the decode error and leaves
the state untouched. -/
theorem get_corrupt (st : CacheState) (now : ℤ) (q s : String) (e : CacheEntry)
    (hl : lookupEntry st (normKey q) s = some e)
    (hc : e.results_json = Payload.corrupt)
    (hfresh : ¬(now - e.created_at > CACHE_TTL_SECONDS)) :
    get_cached_results st now q s = (Except.error JsonDecodeError.mk, st) := by
  unfold get_cached_results
  rw [hl]
  dsimp only
  rw [if_neg hfresh, hc]

/-- Characterization of when `get` reports absent: missing key or stale
entry, and nothing else. -/
theorem get_absent_iff (st : CacheState) (now : ℤ) (q s : String) :
    (get_cached_results st now q s).1 = Except.ok none ↔
      (lookupEntry st (normKey q) s = none ∨
        ∃ e, lookupEntry st (normKey q) s = some e ∧
          now - e.created_at > CACHE_TTL_SECONDS) := by
  unfold get_cached_results
  cases hl : lookupEntry st (normKey q) s with
  | none => simp
  | some e =>
    dsimp only
    by_cases hs : now - e.created_at > CACHE_TTL_SECONDS
    · rw [if_pos hs]
      simp [hs]
    · rw [if_neg hs]
      cases hp : e.results_json with
      | ok ps => simp [hs]
      | corrupt => simp [hs]

/-- Outcome of `wait_for` when the coroutine outlives the deadline. -/
theorem wait_for_timeout (b : SearchBehavior) (t : ℚ) (hd : behaviorDuration b > t) :
    wait_for b t = FetchOutcome.timeout := by
  cases b with
  | returns d ps =>
    unfold behaviorDuration at hd
    unfold wait_for
    dsimp only at hd ⊢
    rw [if_pos hd]
  | raises d msg =>
    unfold behaviorDuration at hd
    unfold wait_for
    dsimp only at hd ⊢
    rw [if_pos hd]

/-- Error strings a per-source task produces always contain a colon. -/
theorem run_scraper_error_colon (st : CacheState) (now : ℤ) (scr : Scraper) (q : String)
    (out : List ScrapedProduct × Option String) (st1 : CacheState)
    (h : run_scraper st now scr q = Except.ok (out, st1))
    (msg : String) (hmsg : out.2 = some msg) :
    ':' ∈ msg.data := by
  unfold run_scraper at h
  dsimp only at h
  rcases hget : get_cached_results st now q (pyLower scr.store_name) with ⟨e | (_ | cached), st2⟩ <;>
    rw [hget] at h <;> dsimp only at h
  · exact absurd h (by simp)
  · cases hw : wait_for (scr.search q) RUN_SCRAPER_DEADLINE with
    | success results =>
      rw [hw] at h
      dsimp only at h
      injection h with h1
      injection h1 with h2 h3
      rw [← h2] at hmsg
      simp at hmsg
    | timeout =>
      rw [hw] at h
      dsimp only at h
      injection h with h1
      injection h1 with h2 h3
      rw [← h2] at hmsg
      simp only [Option.some.injEq] at hmsg
      rw [← hmsg]
      rw [String.data_append]
      refine List.mem_append.mpr (Or.inr ?_)
      decide
    | failure detail =>
      rw [hw] at h
      dsimp only at h
      injection h with h1
      injection h1 with h2 h3
      rw [← h2] at hmsg
      simp only [Option.some.injEq] at hmsg
      rw [← hmsg]
      rw [String.data_append, String.data_append]
      refine List.mem_append.mpr (Or.inl (List.mem_append.mpr (Or.inr ?_)))
      decide
  · injection h with h1
    injection h1 with h2 h3
    rw [← h2] at hmsg
    simp at hmsg

/-- Every error string collected by the gather step contains a colon. -/
theorem runTasks_error_colon (now : ℤ) (q : String) :
    ∀ (reg : Registry) (st : CacheState)
      (outs : List (List ScrapedProduct × Option String)) (st1 : CacheState),
      runTasks now q st reg = Except.ok (outs, st1) →
      ∀ o ∈ outs, ∀ msg, o.2 = some msg → ':' ∈ msg.data := by
  intro reg
  induction reg with
  | nil =>
    intro st outs st1 h o ho msg hmsg
    unfold runTasks at h
    injection h with h1
    injection h1 with h2 h3
    rw [← h2] at ho
    cases ho
  | cons kv rest ih =>
    obtain ⟨k, scr⟩ := kv
    intro st outs st1 h o ho msg hmsg
    unfold runTasks at h
    rcases hrs : run_scraper st now scr q with e | ⟨outcome, stA⟩ <;> rw [hrs] at h <;>
      dsimp only at h
    · exact absurd h (by simp)
    · rcases hrt : runTasks now q stA rest with e2 | ⟨outs2, stB⟩ <;> rw [hrt] at h <;>
        dsimp only at h
      · exact absurd h (by simp)
      · injection h with h1
        injection h1 with h2 h3
        rw [← h2] at ho
        rcases List.mem_cons.mp ho with rfl | hmem
        · exact run_scraper_error_colon st now scr q o stA hrs msg hmsg
        · exact ih stA outs2 stB hrt o hmem msg hmsg

/-- With a non-empty working set every reported error comes from a
per-source task, hence contains a colon; the whole-request message does
not, so it cannot appear. -/
theorem search_all_no_valid_msg (registry : Registry) (st : CacheState) (now : ℤ)
    (q : String) (stores : Option (List String)) (resp : SearchResponse) (st1 : CacheState)
    (hne : (resolveWorkingSet registry stores).isEmpty = false)
    (h : search_all registry st now q stores = Except.ok (resp, st1)) :
    "No valid stores selected" ∉ resp.errors := by
  unfold search_all at h
  dsimp only at h
  rw [hne] at h
  rw [if_neg (by simp)] at h
  rcases hrt : runTasks now q st (resolveWorkingSet registry stores) with e | ⟨outs, st2⟩ <;>
    rw [hrt] at h <;> dsimp only at h
  · exact absurd h (by simp)
  · injection h with h1
    injection h1 with h2 h3
    intro hmem
    rw [← h2] at hmem
    dsimp only at hmem
    rcases List.mem_filterMap.mp hmem with ⟨o, ho, hfo⟩
    rcases ho2 : o.2 with _ | msg <;> rw [ho2] at hfo <;> dsimp only at hfo
    · cases hfo
    · by_cases hne2 : msg ≠ ""
      · rw [if_pos hne2] at hfo
        injection hfo with hfo
        have hc := runTasks_error_colon now q _ st outs st2 hrt o ho msg ho2
        rw [hfo] at hc
        exact absurd hc (by decide)
      · rw [if_neg hne2] at hfo
        cases hfo

/-- Characterization of the resolved working set when a subset is given:
exactly the pairs whose key is a lowered requested store known to the
registry, with the registry's value. -/
theorem buildSubset_mem (registry : Registry) :
    ∀ (ss : List String) (k : String) (scr : Scraper),
      (k, scr) ∈ buildSubset registry ss ↔
        ((∃ s ∈ ss, pyLower s = k) ∧ lookupScraper registry k = some scr) := by
  intro ss
  induction ss with
  | nil =>
    intro k scr
    simp [buildSubset]
  | cons s rest ih =>
    intro k scr
    unfold buildSubset
    cases hl : lookupScraper registry (pyLower s) with
    | none =>
      rw [ih k scr]
      constructor
      · rintro ⟨⟨s2, hs2, hk⟩, hlk⟩
        exact ⟨⟨s2, List.mem_cons_of_mem _ hs2, hk⟩, hlk⟩
      · rintro ⟨⟨s2, hs2, hk⟩, hlk⟩
        rcases List.mem_cons.mp hs2 with rfl | hmem
        · rw [hk] at hl
          rw [hl] at hlk
          cases hlk
        · exact ⟨⟨s2, hmem, hk⟩, hlk⟩
    | some scr0 =>
      constructor
      · intro hmem
        rcases List.mem_cons.mp hmem with heq | hmem2
        · injection heq with h1 h2
          subst h1
          subst h2
          exact ⟨⟨s, List.mem_cons_self _ _, rfl⟩, hl⟩
        · rcases List.mem_filter.mp hmem2 with ⟨hmem3, _⟩
          rcases (ih k scr).mp hmem3 with ⟨⟨s2, hs2, hk⟩, hlk⟩
          exact ⟨⟨s2, List.mem_cons_of_mem _ hs2, hk⟩, hlk⟩
      · rintro ⟨⟨s2, hs2, hk⟩, hlk⟩
        by_cases hks : k = pyLower s
        · have hscr : scr = scr0 := by
            rw [hks, hl] at hlk
            injection hlk with h
            exact h.symm
          subst hscr
          rw [hks]
          exact List.mem_cons_self _ _
        · have hs2r : s2 ∈ rest := by
            rcases List.mem_cons.mp hs2 with rfl | h2
            · exact absurd hk.symm hks
            · exact h2
          have hmem3 := (ih k scr).mpr ⟨⟨s2, hs2r, hk⟩, hlk⟩
          exact List.mem_cons_of_mem _ (List.mem_filter.mpr ⟨hmem3, by simpa using hks⟩)

/-- Stability of one ordered insertion, phrased through equal-key filters:
the inserted element lands in front of every element of equal key. -/
theorem filter_key_orderedInsert (k : ℕ × ℚ) (a : ScrapedProduct) (l : List ScrapedProduct) :
    (List.orderedInsert keyLe a l).filter (fun p => decide (sortKey p = k)) =
      if sortKey a = k then a :: l.filter (fun p => decide (sortKey p = k))
      else l.filter (fun p => decide (sortKey p = k)) := by
  induction l with
  | nil =>
    rw [List.orderedInsert]
    by_cases hk : sortKey a = k <;> simp [hk]
  | cons b l ih =>
    rw [List.orderedInsert]
    by_cases hab : keyLe a b
    · rw [if_pos hab, List.filter_cons]
      by_cases hk : sortKey a = k <;> simp [hk, List.filter_cons]
    · rw [if_neg hab, List.filter_cons, ih]
      by_cases hak : sortKey a = k
      · have hbk : sortKey b ≠ k := by
          intro hbk
          apply hab
          unfold keyLe
          rw [hak, hbk]
          exact Or.inr ⟨rfl, le_refl _⟩
        simp [hak, hbk, List.filter_cons]
      · by_cases hbk : sortKey b = k <;> simp [hak, hbk, List.filter_cons]

/-- Stability of the whole sort: for every key value, the equal-key
sublist is unchanged. -/
theorem filter_key_insertionSort (k : ℕ × ℚ) :
    ∀ l : List ScrapedProduct,
      (sortProducts l).filter (fun p => decide (sortKey p = k)) =
        l.filter (fun p => decide (sortKey p = k)) := by
  intro l
  induction l with
  | nil => rfl
  | cons a l ih =>
    show (List.orderedInsert keyLe a (List.insertionSort keyLe l)).filter _ = _
    rw [filter_key_orderedInsert, List.filter_cons]
    by_cases hk : sortKey a = k
    · rw [if_pos hk, if_pos (by simp [hk])]
      rw [show List.insertionSort keyLe l = sortProducts l from rfl, ih]
    · rw [if_neg hk, if_neg (by simp [hk])]
      rw [show List.insertionSort keyLe l = sortProducts l from rfl, ih]

/-! Section: claim theorems -/

/-- Claim C7: for every query, source key and product list, a `put`
followed immediately by a `get` for the same key (same clock reading, so
no TTL expiry can intervene) returns exactly the stored products. -/
theorem claim_C7 (st : CacheState) (now : ℤ) (q s : String)
    (ps : List ScrapedProduct) :
    (get_cached_results (set_cached_results st now q s ps) now q s).1 =
      Except.ok (some ps) := by
  rw [cache_roundtrip]

/-- Claim C8: `get` reports absent exactly when the normalized key is
missing or the entry's age exceeds the TTL; in the stale case the entry is
deleted before `get` returns (lazy expiration); the TTL constant is
21600 seconds; and a subsequent successful fetch-and-store for the same
key is itself retrievable. -/
theorem claim_C8 :
    (∀ (st : CacheState) (now : ℤ) (q s : String),
        (get_cached_results st now q s).1 = Except.ok none ↔
          (lookupEntry st (normKey q) s = none ∨
            ∃ e, lookupEntry st (normKey q) s = some e ∧
              now - e.created_at > CACHE_TTL_SECONDS)) ∧
    (∀ (st : CacheState) (now : ℤ) (q s : String) (e : CacheEntry),
        lookupEntry st (normKey q) s = some e →
        now - e.created_at > CACHE_TTL_SECONDS →
        get_cached_results st now q s = (Except.ok none, deleteEntry st (normKey q) s) ∧
          lookupEntry (deleteEntry st (normKey q) s) (normKey q) s = none) ∧
    CACHE_TTL_SECONDS = 21600 ∧
    (∀ (st : CacheState) (now : ℤ) (q s : String) (ps : List ScrapedProduct),
        (get_cached_results (set_cached_results st now q s ps) now q s).1 =
          Except.ok (some ps)) := by
  refine ⟨get_absent_iff, ?_, by decide, ?_⟩
  · intro st now q s e hl hstale
    exact ⟨get_stale st now q s e hl hstale, lookupEntry_delete_self st (normKey q) s⟩
  · intro st now q s ps
    rw [cache_roundtrip]

/-- Witness for claim C8: a concrete entry written at time 0 and read at
time 30000 (age beyond the 21600 s TTL) is reported absent and physically
deleted. -/
theorem claim_C8_witness :
    get_cached_results staleState 30000 ("q") ("s") =
      (Except.ok none, deleteEntry staleState (normKey ("q")) ("s")) ∧
    lookupEntry (deleteEntry staleState (normKey ("q")) ("s")) (normKey ("q")) ("s") = none :=
  claim_C8.2.1 staleState 30000 ("q") ("s")
    ⟨("q"), ("s"), Payload.ok [], 0⟩ (by decide) (by decide)

/-- Claim C10: passing an empty subset behaves exactly like passing no
subset at all (Python `if stores:` is false for both): the whole registry
is resolved and no whole-request error is produced. -/
theorem claim_C10 (registry : Registry) (st : CacheState) (now : ℤ) (q : String) :
    search_all registry st now q (some []) = search_all registry st now q none ∧
    resolveWorkingSet registry (some []) = registry :=
  ⟨rfl, rfl⟩

/-- Claim C6: the final merge sorts by the key (has price missing as 0/1,
price or zero) ascending, the sort is a stable permutation (for every key
value the equal-key sublist keeps its input order), the first key
component is 1 exactly for price-less products, and the concrete price
pattern none/2.50/1.20/none sorts to 1.20/2.50/none/none with both
price-less products in input order. -/
theorem claim_C6 :
    (∀ l : List ScrapedProduct, List.Sorted keyLe (sortProducts l)) ∧
    (∀ l : List ScrapedProduct, (sortProducts l).Perm l) ∧
    (∀ (l : List ScrapedProduct) (k : ℕ × ℚ),
        (sortProducts l).filter (fun p => decide (sortKey p = k)) =
          l.filter (fun p => decide (sortKey p = k))) ∧
    (∀ p : ScrapedProduct, (sortKey p).1 = 1 ↔ p.price = none) ∧
    sortProducts [exNull1, exPrice250, exPrice120, exNull2] =
      [exPrice120, exPrice250, exNull1, exNull2] := by
  refine ⟨?_, ?_, ?_, ?_, ?_⟩
  · intro l
    exact List.sorted_insertionSort keyLe l
  · intro l
    exact List.perm_insertionSort keyLe l
  · intro l k
    exact filter_key_insertionSort k l
  · intro p
    cases hp : p.price <;> simp [sortKey, hp]
  · decide

/-- Counterexample to claim C1: a fresh corrupted row for the key
(q, aldi) makes `get` raise the decode error instead of returning absent,
and the exception propagates: the `search_all` aggregation call over the
aldi registry itself fails. -/
theorem claim_C1_counterexample :
    (get_cached_results corruptState 0 ("q") ("aldi")).1 = Except.error JsonDecodeError.mk ∧
    search_all aldiRegistry corruptState 0 ("q") none = Except.error JsonDecodeError.mk := by
  constructor
  · decide
  · decide

/-- Claim C1 as amended: a corrupted payload whose entry is not stale
makes `get` raise the decode error (the code has no handler around
`json.loads`), and in a single-source aggregation the error propagates
through the gather, so `search_all` itself fails. -/
theorem claim_C1_amended :
    (∀ (st : CacheState) (now : ℤ) (q s : String) (e : CacheEntry),
        lookupEntry st (normKey q) s = some e →
        e.results_json = Payload.corrupt →
        ¬(now - e.created_at > CACHE_TTL_SECONDS) →
        (get_cached_results st now q s).1 = Except.error JsonDecodeError.mk) ∧
    (∀ (k : String) (scr : Scraper) (st : CacheState) (now : ℤ) (q : String) (e : CacheEntry),
        lookupEntry st (normKey q) (pyLower scr.store_name) = some e →
        e.results_json = Payload.corrupt →
        ¬(now - e.created_at > CACHE_TTL_SECONDS) →
        search_all [(k, scr)] st now q none = Except.error JsonDecodeError.mk) := by
  constructor
  · intro st now q s e hl hc hf
    rw [get_corrupt st now q s e hl hc hf]
  · intro k scr st now q e hl hc hf
    have hrun : run_scraper st now scr q = Except.error JsonDecodeError.mk := by
      unfold run_scraper
      dsimp only
      rw [get_corrupt st now q (pyLower scr.store_name) e hl hc hf]
    have ht : runTasks now q st [(k, scr)] = Except.error JsonDecodeError.mk := by
      unfold runTasks
      rw [hrun]
    unfold search_all
    dsimp only
    rw [show resolveWorkingSet [(k, scr)] none = [(k, scr)] from rfl]
    rw [if_neg (by simp)]
    rw [ht]

/-- Witness for claim C1 (amended): the corrupted row of `corruptState`
is fresh at time 0, so both conclusions fire on it. -/
theorem claim_C1_witness :
    (get_cached_results corruptState 0 ("q") ("aldi")).1 = Except.error JsonDecodeError.mk ∧
    search_all [(("aldi"), aldiScraper)] corruptState 0 ("q") none =
      Except.error JsonDecodeError.mk := by
  constructor
  · exact claim_C1_amended.1 corruptState 0 ("q") ("aldi")
      ⟨("q"), ("aldi"), Payload.corrupt, 0⟩ (by decide) rfl (by decide)
  · exact claim_C1_amended.2 ("aldi") aldiScraper corruptState 0 ("q")
      ⟨("q"), ("aldi"), Payload.corrupt, 0⟩ (by decide) rfl (by decide)

/-- Claim C2: on a cache miss a fetch that exceeds the 45 s deadline
yields the empty list and exactly the error source: timeout; any other
fetch failure within the deadline yields the empty list and exactly
source: detail; and in the concrete 4-source scenario where only source 2
times out, the aggregation returns the concatenation of the products of
sources 1, 3 and 4 together with the single error S2: timeout. -/
theorem claim_C2 :
    (∀ (st : CacheState) (now : ℤ) (scr : Scraper) (q : String) (st1 : CacheState),
        get_cached_results st now q (pyLower scr.store_name) = (Except.ok none, st1) →
        behaviorDuration (scr.search q) > RUN_SCRAPER_DEADLINE →
        run_scraper st now scr q =
          Except.ok (([], some (scr.store_name ++ ": timeout")), st1)) ∧
    (∀ (st : CacheState) (now : ℤ) (scr : Scraper) (q : String) (st1 : CacheState)
        (d : ℚ) (detail : String),
        get_cached_results st now q (pyLower scr.store_name) = (Except.ok none, st1) →
        scr.search q = SearchBehavior.raises d detail →
        ¬(d > RUN_SCRAPER_DEADLINE) →
        run_scraper st now scr q =
          Except.ok (([], some (scr.store_name ++ ": " ++ detail)), st1)) ∧
    search_all scenarioRegistry [] 0 ("huile") none =
      Except.ok ({ query := "huile",
                   results := s1Products ++ s3Products ++ s4Products,
                   errors := ["S2: timeout"] }, scenarioFinalState) := by
  refine ⟨?_, ?_, ?_⟩
  · intro st now scr q st1 hget hd
    unfold run_scraper
    dsimp only
    rw [hget]
    dsimp only
    rw [wait_for_timeout _ _ hd]
  · intro st now scr q st1 d detail hget hs hd
    unfold run_scraper
    dsimp only
    rw [hget]
    dsimp only
    rw [show wait_for (scr.search q) RUN_SCRAPER_DEADLINE = FetchOutcome.failure detail by
      rw [hs]; unfold wait_for; dsimp only; rw [if_neg hd]]
  · decide

/-- Witness for claim C2: source 2 of the scenario (fetch runs 100 s,
beyond the deadline) and the raising source S5 (detail boom, within the
deadline), both on an empty cache. -/
theorem claim_C2_witness :
    run_scraper [] 0 srcS2 ("huile") =
      Except.ok (([], some (("S2") ++ (": timeout"))), []) ∧
    run_scraper [] 0 failScraper ("q") =
      Except.ok (([], some (("S5") ++ (": ") ++ ("boom"))), []) := by
  constructor
  · exact claim_C2.1 [] 0 srcS2 ("huile") [] (by decide) (by decide)
  · exact claim_C2.2.1 [] 0 failScraper ("q") [] 1 ("boom") (by decide) rfl (by decide)

/-- Counterexample to claim C9: the deadline the Coordinator enforces is
not the configuration value, and the configuration value is not 45. -/
theorem claim_C9_counterexample :
    (RUN_SCRAPER_DEADLINE = ((SCRAPER_TIMEOUT_SECONDS : ℤ) : ℚ) ∧
      SCRAPER_TIMEOUT_SECONDS = 45) = False := by
  norm_num [RUN_SCRAPER_DEADLINE, SCRAPER_TIMEOUT_SECONDS]

/-- Claim C9 as amended: the per-source deadline is the fixed literal 45
hardcoded in the Coordinator, the configuration constant
`SCRAPER_TIMEOUT_SECONDS` is 15 and is not what `search_all` uses, and on
a cache miss a fetch longer than this 45 s deadline is reported as a
timeout. -/
theorem claim_C9_amended :
    RUN_SCRAPER_DEADLINE = 45 ∧ SCRAPER_TIMEOUT_SECONDS = 15 ∧
    (∀ (st : CacheState) (now : ℤ) (scr : Scraper) (q : String) (st1 : CacheState)
        (d : ℚ) (ps : List ScrapedProduct),
        get_cached_results st now q (pyLower scr.store_name) = (Except.ok none, st1) →
        scr.search q = SearchBehavior.returns d ps →
        d > RUN_SCRAPER_DEADLINE →
        run_scraper st now scr q =
          Except.ok (([], some (scr.store_name ++ ": timeout")), st1)) := by
  refine ⟨rfl, rfl, ?_⟩
  intro st now scr q st1 d ps hget hs hd
  unfold run_scraper
  dsimp only
  rw [hget]
  dsimp only
  rw [show wait_for (scr.search q) RUN_SCRAPER_DEADLINE = FetchOutcome.timeout by
    rw [hs]; unfold wait_for; dsimp only; rw [if_pos hd]]

/-- Witness for claim C9 (amended): source 2 of the scenario run at time
5 on an empty cache is converted to a timeout error by the 45 s deadline. -/
theorem claim_C9_witness :
    run_scraper [] 5 srcS2 ("huile") =
      Except.ok (([], some (("S2") ++ (": timeout"))), []) :=
  claim_C9_amended.2.2 [] 5 srcS2 ("huile") [] 100 s2Products (by decide) rfl (by decide)

/-- Claim C3: the working set keeps exactly the lowered subset keys known
to the registry (unknown keys silently dropped); with no subset the whole
registry is used; an empty working set returns immediately with no
products and the single error No valid stores selected, touching neither
the cache nor any source; and with a non-empty working set that message
can never appear among the errors. -/
theorem claim_C3 :
    (∀ (registry : Registry) (ss : List String) (k : String) (scr : Scraper),
        (k, scr) ∈ buildSubset registry ss ↔
          ((∃ s ∈ ss, pyLower s = k) ∧ lookupScraper registry k = some scr)) ∧
    (∀ registry : Registry, resolveWorkingSet registry none = registry) ∧
    (∀ (registry : Registry) (st : CacheState) (now : ℤ) (q : String)
        (stores : Option (List String)),
        (resolveWorkingSet registry stores).isEmpty = true →
        search_all registry st now q stores =
          Except.ok ({ query := q, results := [], errors := ["No valid stores selected"] }, st)) ∧
    (∀ (registry : Registry) (st : CacheState) (now : ℤ) (q : String)
        (stores : Option (List String)) (resp : SearchResponse) (st1 : CacheState),
        (resolveWorkingSet registry stores).isEmpty = false →
        search_all registry st now q stores = Except.ok (resp, st1) →
        "No valid stores selected" ∉ resp.errors) := by
  refine ⟨buildSubset_mem, fun _ => rfl, ?_, ?_⟩
  · intro registry st now q stores hempty
    unfold search_all
    dsimp only
    rw [if_pos hempty]
  · intro registry st now q stores resp st1 hne h
    exact search_all_no_valid_msg registry st now q stores resp st1 hne h

/-- Witness for claim C3: the subset [doesnotexist] resolves to nothing
against the aldi registry, giving the immediate whole-request error with
the cache untouched; and a run over the raising source S5 yields an error
list that the whole-request message is indeed not part of. -/
theorem claim_C3_witness :
    search_all aldiRegistry [] 0 ("q") (some ["doesnotexist"]) =
      Except.ok ({ query := "q", results := [], errors := ["No valid stores selected"] }, []) ∧
    "No valid stores selected" ∉
      ({ query := "q", results := [], errors := [("S5") ++ (": ") ++ ("boom")] } :
        SearchResponse).errors := by
  constructor
  · exact claim_C3.2.2.1 aldiRegistry [] 0 ("q") (some ["doesnotexist"]) (by rfl)
  · exact claim_C3.2.2.2 failRegistry [] 0 ("q") none _ [] (by rfl) (by decide)

/-- Claim C4: with a non-empty keyword list, any keyword missing from the
normalized product name as a whole word makes the product irrelevant;
an all-stop-words query makes every product relevant; and concretely the
query huile tournesol accepts Huile de tournesol Bellasan and rejects
Huile d-apos-olive. -/
theorem claim_C4 :
    (∀ (p : ScrapedProduct) (q : String) (kw : String),
        kw ∈ extractWords q →
        wholeWordSearch kw.data (normalizeStr p.name).data = false →
        is_relevant p q = false) ∧
    (∀ (p : ScrapedProduct) (q : String),
        extractWords q = [] → is_relevant p q = true) ∧
    is_relevant (sampleProduct ("Huile de tournesol Bellasan")) ("huile tournesol") = true ∧
    is_relevant (sampleProduct nameHuileOlive) ("huile tournesol") = false := by
  refine ⟨?_, ?_, ?_, ?_⟩
  · intro p q kw hmem hfail
    have hne : (extractWords q).isEmpty = false := by
      cases hq : extractWords q
      · rw [hq] at hmem
        cases hmem
      · rfl
    have hall : (List.all (extractWords q)
        fun kw => wholeWordSearch kw.data (normalizeStr p.name).data) = false := by
      cases hb : List.all (extractWords q)
          fun kw => wholeWordSearch kw.data (normalizeStr p.name).data
      · rfl
      · exact absurd (List.all_eq_true.mp hb kw hmem)
          (by rw [hfail]; exact Bool.false_ne_true)
    unfold is_relevant
    dsimp only
    rw [hne, hall]
    simp
  · intro p q h
    unfold is_relevant
    dsimp only
    rw [h]
    simp
  · decide
  · decide

/-- Witness for claim C4: the keyword tournesol, present in the query but
absent from Huile d-apos-olive, forces irrelevance; the all-stop-words
query de la accepts an arbitrary product. -/
theorem claim_C4_witness :
    is_relevant (sampleProduct nameHuileOlive) ("huile tournesol") = false ∧
    is_relevant (sampleProduct ("Anything")) ("de la") = true := by
  constructor
  · exact claim_C4.1 (sampleProduct nameHuileOlive) ("huile tournesol") ("tournesol")
      (by decide) (by decide)
  · exact claim_C4.2.1 (sampleProduct ("Anything")) ("de la") (by decide)

/-- Claim C5, evaluating the code at the failing input: for the query
huile tournesol against the product Thon a-grave l-apos-huile de
tournesol, the keywords and product words are as the rule says, Rule A
passes, but the coverage ratio is 2/3, which is not below the 0.5
threshold, so the code KEEPS the product, although both the claim and the
comment at `_MIN_RELEVANCE` in `backend/services/search.py` say it is
rejected. -/
theorem claim_C5_code_eval :
    extractWords ("huile tournesol") = ["huile", "tournesol"] ∧
    extractWords nameThon = ["thon", "huile", "tournesol"] ∧
    (List.all (extractWords ("huile tournesol"))
      fun kw => wholeWordSearch kw.data (normalizeStr nameThon).data) = true ∧
    mkRat 2 3 ≥ MIN_RELEVANCE ∧
    is_relevant (sampleProduct nameThon) ("huile tournesol") = true := by
  refine ⟨?_, ?_, ?_, ?_, ?_⟩ <;> decide
